import Mathlib

/-!
# Verification of the gru-wgpu application host

A shallow embedding of the core of the `gru-wgpu` crate:

* `src/graphics.rs` — the presentation surface manager (`Graphics`):
  surface (re)configuration and per-frame target acquisition;
* `src/input.rs` — the input translator (`Input` and the free function
  `convert`, i.e. the `gru-ui` feature branch): raw platform events are
  normalized into a closed semantic vocabulary (`HardwareEvent`), with
  pointer-position tracking and a camera-capture mode;
* `src/lib.rs` — the lifecycle controller (`AppHandler` with its
  `user_event` / `device_event` / `window_event` dispatch).

GPU and OS side effects that the Rust code performs through `wgpu` and
`winit` are made observable instead of executed: the underlying
`wgpu::Surface::configure` call is counted (`reconfigure_count`), the result
of `wgpu::Surface::get_current_texture` is an explicit input
(`SurfaceResponse`), and the `winit` window calls made by
`Input::mouse_cam_mode` are returned as a list of `WindowCmd`.
Pointer coordinates are modelled over `Int` (the claims under study are
control-flow properties; no floating-point arithmetic is relevant to them).
Rust panics (`unreachable!()`, `unwrap` failures) are modelled as `none`.
-/

namespace GruWgpu

/-! ## Presentation surface manager (`src/graphics.rs`) -/

/-- `wgpu::SurfaceError`, the error type of `Surface::get_current_texture`. -/
inductive SurfaceError
  | Timeout
  | Outdated
  | Lost
  | OutOfMemory
  | Other
  deriving DecidableEq, Repr

/-- The environment's answer to `self.surface.get_current_texture()`:
either a texture (opaque here) or a `wgpu::SurfaceError`. -/
inductive SurfaceResponse
  | ok
  | err (e : SurfaceError)
  deriving DecidableEq, Repr

/-- The state of `Graphics` (`src/graphics.rs`) that the claims depend on:
`surface_size: Option<(u32, u32)>` plus an observation counter for the
underlying `self.surface.configure(&self.device, &surface_conf)` calls
(the "reconfiguration counter" of the spec's testable properties).
The format fields and the GPU handles are opaque to every claim. -/
structure Graphics where
  surface_size : Option (Nat × Nat)
  reconfigure_count : Nat
  deriving DecidableEq, Repr

/-- `Graphics` directly after `Graphics::init`: `surface_size = None`,
no underlying configuration performed yet. -/
def Graphics.initial : Graphics :=
  { surface_size := none, reconfigure_count := 0 }

/-- `Graphics::configure` (`src/graphics.rs:91`): only when both dimensions
are strictly positive and the requested size differs from
`self.surface_size` does it store the new size and configure the underlying
surface (counted by `reconfigure_count`); otherwise it does nothing. -/
def Graphics.configure (g : Graphics) (wh : Nat × Nat) : Graphics :=
  if 0 < wh.1 ∧ 0 < wh.2 ∧ some wh ≠ g.surface_size then
    { surface_size := some wh, reconfigure_count := g.reconfigure_count + 1 }
  else g

/-- `Graphics::current_surface` (`src/graphics.rs:114`), with the result of
`get_current_texture` passed in as `resp`. Returns the updated `Graphics`
and `Result<Option<(SurfaceTexture, TextureView)>>`; the texture/view pair
is opaque (`Unit`). `surface_size = None` short-circuits to `Ok(None)`;
`Lost`/`Outdated` run `self.configure(size)` and yield `Ok(None)`; any
other error is propagated. -/
def Graphics.current_surface (g : Graphics) (resp : SurfaceResponse) :
    Graphics × Except SurfaceError (Option Unit) :=
  match g.surface_size with
  | none => (g, .ok none)
  | some size =>
    match resp with
    | .ok => (g, .ok (some ()))
    | .err .Lost => (g.configure size, .ok none)
    | .err .Outdated => (g.configure size, .ok none)
    | .err e => (g, .error e)

/-- A configure-call history consisting only of zero-dimension requests. -/
def allZeroDim (calls : List (Nat × Nat)) : Prop :=
  ∀ wh ∈ calls, wh.1 = 0 ∨ wh.2 = 0

instance (calls : List (Nat × Nat)) : Decidable (allZeroDim calls) := by
  unfold allZeroDim; infer_instance

/-- The resize sequence of the spec's testable property, applied to a
freshly initialized manager. -/
def resizeSequence : Graphics :=
  ((((Graphics.initial.configure (0, 0)).configure (800, 600)).configure
      (800, 600)).configure (0, 300))

/-! ## Input translator (`src/input.rs`, `gru-ui` feature branch) -/

/-- 2D vector (`gru_misc::math::Vec2`); coordinates modelled over `Int`. -/
structure Vec2 where
  x : Int
  y : Int
  deriving DecidableEq, Repr

instance : Sub Vec2 := ⟨fun a b => ⟨a.x - b.x, a.y - b.y⟩⟩

/-- `winit::event::ElementState`. -/
inductive ElementState
  | Pressed
  | Released
  deriving DecidableEq, Repr

/-- `winit::event::MouseButton` (raw platform button). -/
inductive WinitMouseButton
  | Left
  | Right
  | Middle
  | OtherButton (id : Nat)
  deriving DecidableEq, Repr

/-- `gru_ui::event::MouseButton` (semantic button). -/
inductive MouseButton
  | Primary
  | Secondary
  | Terciary
  deriving DecidableEq, Repr

/-- `winit::event::MouseScrollDelta`. -/
inductive MouseScrollDelta
  | LineDelta (dx dy : Int)
  | PixelDelta (pos : Vec2)
  deriving DecidableEq, Repr

/-- `winit::keyboard::KeyCode`: the raw key codes that appear in the
mapping table of `convert` (`src/input.rs:123`), plus representative codes
that are absent from the table (from `CapsLock` on). -/
inductive KeyCode
  | Digit1 | Digit2 | Digit3 | Digit4 | Digit5
  | Digit6 | Digit7 | Digit8 | Digit9 | Digit0
  | KeyA | KeyB | KeyC | KeyD | KeyE | KeyF | KeyG | KeyH | KeyI
  | KeyJ | KeyK | KeyL | KeyM | KeyN | KeyO | KeyP | KeyQ | KeyR
  | KeyS | KeyT | KeyU | KeyV | KeyW | KeyX | KeyY | KeyZ
  | Escape
  | F1 | F2 | F3 | F4 | F5 | F6 | F7 | F8 | F9 | F10 | F11 | F12
  | F13 | F14 | F15 | F16 | F17 | F18 | F19 | F20 | F21 | F22 | F23 | F24
  | Pause | Insert | Home | Delete | End | PageDown | PageUp
  | ArrowLeft | ArrowUp | ArrowRight | ArrowDown
  | Backspace | Enter | Space | NumLock
  | Numpad0 | Numpad1 | Numpad2 | Numpad3 | Numpad4
  | Numpad5 | Numpad6 | Numpad7 | Numpad8 | Numpad9
  | NumpadAdd | NumpadDivide | NumpadDecimal | NumpadComma
  | NumpadEnter | NumpadEqual | NumpadMultiply | NumpadSubtract
  | AltLeft | ControlLeft | ShiftLeft | AltRight | ControlRight | ShiftRight
  | Tab
  | CapsLock | Backquote | Minus | Equal | Backslash | Slash
  | Period | Comma | Semicolon | Quote | BracketLeft | BracketRight
  | SuperLeft | ContextMenu | PrintScreen | ScrollLock
  deriving DecidableEq, Repr

/-- `gru_ui::event::Key`: the closed semantic key set targeted by the
mapping table. -/
inductive Key
  | Key1 | Key2 | Key3 | Key4 | Key5 | Key6 | Key7 | Key8 | Key9 | Key0
  | A | B | C | D | E | F | G | H | I | J | K | L | M
  | N | O | P | Q | R | S | T | U | V | W | X | Y | Z
  | Escape
  | F1 | F2 | F3 | F4 | F5 | F6 | F7 | F8 | F9 | F10 | F11 | F12
  | F13 | F14 | F15 | F16 | F17 | F18 | F19 | F20 | F21 | F22 | F23 | F24
  | Pause | Insert | Home | Delete | End | PageDown | PageUp
  | Left | Up | Right | Down
  | Back | Return | Space | Numlock
  | Numpad0 | Numpad1 | Numpad2 | Numpad3 | Numpad4
  | Numpad5 | Numpad6 | Numpad7 | Numpad8 | Numpad9
  | NumpadAdd | NumpadDivide | NumpadDecimal | NumpadComma
  | NumpadEnter | NumpadEquals | NumpadMultiply | NumpadSubtract
  | LAlt | LControl | LShift | RAlt | RControl | RShift
  | Tab
  deriving DecidableEq, Repr

/-- `winit::keyboard::PhysicalKey`. -/
inductive PhysicalKey
  | Code (code : KeyCode)
  | Unidentified
  deriving DecidableEq, Repr

/-- The fields of `winit::event::KeyEvent` read by `convert`:
`physical_key`, `state` and `text` (`text` abbreviated to its first
character, the only one the code reads; the code `unwrap`s a nonempty
string). -/
structure KeyEvent where
  physical_key : PhysicalKey
  state : ElementState
  text : Option Char
  deriving DecidableEq, Repr

/-- The `winit::event::DeviceEvent` cases distinguished by `convert`. -/
inductive DeviceEvent
  | MouseMotion (delta : Vec2)
  | OtherDevice
  deriving DecidableEq, Repr

/-- The `winit::event::WindowEvent` cases distinguished by the code
(`convert` in `src/input.rs` and `window_event` in `src/lib.rs`). -/
inductive WindowEvent
  | CloseRequested
  | CursorMoved (position : Vec2)
  | MouseInput (state : ElementState) (button : WinitMouseButton)
  | CursorLeft
  | MouseWheel (delta : MouseScrollDelta)
  | KeyboardInput (event : KeyEvent)
  | Resized (width height : Nat)
  | RedrawRequested
  | OtherWindow
  deriving DecidableEq, Repr

/-- `gru_wgpu::input::RawEvent`. -/
inductive RawEvent
  | Device (event : DeviceEvent)
  | Window (event : WindowEvent)
  deriving DecidableEq, Repr

/-- `gru_ui::event::HardwareEvent`: the normalized semantic vocabulary. -/
inductive HardwareEvent
  | RawMouseDelta (delta : Vec2)
  | CloseWindow
  | PointerMoved (pos delta : Vec2)
  | PointerClicked (pos : Vec2) (button : MouseButton) (pressed : Bool)
  | PointerGone
  | Scroll (pos delta : Vec2)
  | Key (key : Key) (pressed : Bool)
  | Char (ch : Char)
  deriving DecidableEq, Repr

/-- The static key-mapping table inside `convert`
(`src/input.rs:127-231`), transcribed arm by arm. -/
def keyMap : KeyCode → Option Key
  | .Digit1 => some .Key1
  | .Digit3 => some .Key3
  | .Digit2 => some .Key2
  | .Digit4 => some .Key4
  | .Digit5 => some .Key5
  | .Digit6 => some .Key6
  | .Digit7 => some .Key7
  | .Digit8 => some .Key8
  | .Digit9 => some .Key9
  | .Digit0 => some .Key0
  | .KeyA => some .A
  | .KeyB => some .B
  | .KeyC => some .C
  | .KeyD => some .D
  | .KeyE => some .E
  | .KeyF => some .F
  | .KeyG => some .G
  | .KeyH => some .H
  | .KeyI => some .I
  | .KeyJ => some .J
  | .KeyK => some .K
  | .KeyL => some .L
  | .KeyM => some .M
  | .KeyN => some .N
  | .KeyO => some .O
  | .KeyP => some .P
  | .KeyQ => some .Q
  | .KeyR => some .R
  | .KeyS => some .S
  | .KeyT => some .T
  | .KeyU => some .U
  | .KeyV => some .V
  | .KeyW => some .W
  | .KeyX => some .X
  | .KeyY => some .Y
  | .KeyZ => some .Z
  | .Escape => some .Escape
  | .F1 => some .F1
  | .F2 => some .F2
  | .F3 => some .F3
  | .F4 => some .F4
  | .F5 => some .F5
  | .F6 => some .F6
  | .F7 => some .F7
  | .F8 => some .F8
  | .F9 => some .F9
  | .F10 => some .F10
  | .F11 => some .F11
  | .F12 => some .F12
  | .F13 => some .F13
  | .F14 => some .F14
  | .F15 => some .F15
  | .F16 => some .F16
  | .F17 => some .F17
  | .F18 => some .F18
  | .F19 => some .F19
  | .F20 => some .F20
  | .F21 => some .F21
  | .F22 => some .F22
  | .F23 => some .F23
  | .F24 => some .F24
  | .Pause => some .Pause
  | .Insert => some .Insert
  | .Home => some .Home
  | .Delete => some .Delete
  | .End => some .End
  | .PageDown => some .PageDown
  | .PageUp => some .PageUp
  | .ArrowLeft => some .Left
  | .ArrowUp => some .Up
  | .ArrowRight => some .Right
  | .ArrowDown => some .Down
  | .Backspace => some .Back
  | .Enter => some .Return
  | .Space => some .Space
  | .NumLock => some .Numlock
  | .Numpad0 => some .Numpad0
  | .Numpad1 => some .Numpad1
  | .Numpad2 => some .Numpad2
  | .Numpad3 => some .Numpad3
  | .Numpad4 => some .Numpad4
  | .Numpad5 => some .Numpad5
  | .Numpad6 => some .Numpad6
  | .Numpad7 => some .Numpad7
  | .Numpad8 => some .Numpad8
  | .Numpad9 => some .Numpad9
  | .NumpadAdd => some .NumpadAdd
  | .NumpadDivide => some .NumpadDivide
  | .NumpadDecimal => some .NumpadDecimal
  | .NumpadComma => some .NumpadComma
  | .NumpadEnter => some .NumpadEnter
  | .NumpadEqual => some .NumpadEquals
  | .NumpadMultiply => some .NumpadMultiply
  | .NumpadSubtract => some .NumpadSubtract
  | .AltLeft => some .LAlt
  | .ControlLeft => some .LControl
  | .ShiftLeft => some .LShift
  | .AltRight => some .RAlt
  | .ControlRight => some .RControl
  | .ShiftRight => some .RShift
  | .Tab => some .Tab
  | _ => none

/-- The free function `convert` (`src/input.rs:84`): translates one raw
event given the capture-mode flag and the current pointer position; returns
the updated pointer position and the semantic events accepted, in order.
Faithful to the source's match: a `CursorMoved` whose `!cam_mode` guard
fails falls through to the final catch-all and produces nothing. -/
def convert (cam_mode : Bool) (pointer_pos : Vec2) (raw_event : RawEvent) :
    Vec2 × List HardwareEvent :=
  match raw_event with
  | .Device event =>
    match event with
    | .MouseMotion delta =>
      if cam_mode then (pointer_pos, [.RawMouseDelta delta])
      else (pointer_pos, [])
    | _ => (pointer_pos, [])
  | .Window event =>
    match event with
    | .CloseRequested => (pointer_pos, [.CloseWindow])
    | .CursorMoved position =>
      if !cam_mode then
        let new_pos := position
        let delta := new_pos - pointer_pos
        (new_pos, [.PointerMoved new_pos delta])
      else (pointer_pos, [])
    | .MouseInput state button =>
      let button : MouseButton :=
        match button with
        | .Left => .Primary
        | .Right => .Secondary
        | .Middle => .Terciary
        | _ => .Terciary
      (pointer_pos, [.PointerClicked pointer_pos button (state == .Pressed)])
    | .CursorLeft => (pointer_pos, [.PointerGone])
    | .MouseWheel (.LineDelta dx dy) =>
      (pointer_pos, [.Scroll pointer_pos ⟨dx, dy⟩])
    | .KeyboardInput event =>
      match event.physical_key with
      | .Code keycode =>
        let keyEvents : List HardwareEvent :=
          match keyMap keycode with
          | some key => [.Key key (event.state == .Pressed)]
          | none => []
        let charEvents : List HardwareEvent :=
          match event.text with
          | some ch => [.Char ch]
          | none => []
        (pointer_pos, keyEvents ++ charEvents)
      | .Unidentified => (pointer_pos, [])
    | _ => (pointer_pos, [])

/-- The state of `gru_wgpu::input::Input` (`src/input.rs:14`):
capture-mode flag, last known absolute pointer position, and the per-frame
queue of normalized events. -/
structure Input where
  cam_mode : Bool
  pointer_pos : Vec2
  events : List HardwareEvent
  deriving DecidableEq, Repr

/-- `Input::new`. -/
def Input.new : Input :=
  { cam_mode := false, pointer_pos := ⟨0, 0⟩, events := [] }

/-- `Input::event` (`gru-ui` branch): runs `convert` on the raw event,
updating the pointer position and appending the accepted semantic events
to the queue. -/
def Input.event (i : Input) (e : RawEvent) : Input :=
  let r := convert i.cam_mode i.pointer_pos e
  { i with pointer_pos := r.1, events := i.events ++ r.2 }

/-- `Input::clear` (`src/input.rs:50`): `self.events.clear()`. -/
def Input.clear (i : Input) : Input :=
  { i with events := [] }

/-- `winit::window::CursorGrabMode`. -/
inductive CursorGrabMode
  | None
  | Confined
  | Locked
  deriving DecidableEq, Repr

/-- The `winit` window calls performed by `Input::mouse_cam_mode`, made
observable. -/
inductive WindowCmd
  | SetCursorVisible (visible : Bool)
  | SetCursorGrab (mode : CursorGrabMode)
  | SetCursorPosition (pos : Vec2)
  deriving DecidableEq, Repr

/-- `Input::mouse_cam_mode` (`src/input.rs:67`): enabling hides the cursor
then confines it; disabling releases confinement, restores visibility and
repositions the system cursor to `self.pointer_pos`; finally the flag is
stored. The window calls are returned in source order. -/
def Input.mouse_cam_mode (i : Input) (enable : Bool) :
    Input × List WindowCmd :=
  if enable then
    ({ i with cam_mode := true },
     [.SetCursorVisible false, .SetCursorGrab .Confined])
  else
    ({ i with cam_mode := false },
     [.SetCursorGrab .None, .SetCursorVisible true,
      .SetCursorPosition i.pointer_pos])

/-! ## Lifecycle controller (`src/lib.rs`) -/

/-- The execution context `Context<T>` (`src/lib.rs:31`) as seen by the
dispatch code: input translator and presentation surface manager. The
window handle and the optional `gru-ui` fields are opaque to the claims. -/
structure Ctx where
  input : Input
  graphics : Graphics
  deriving DecidableEq, Repr

/-- The callback contract of the `App` trait (`src/lib.rs:18`), for an
application type `T` with init payload type `I`. `&mut` receivers are
modelled by returning the updated values:
`init(payload, ctx) -> app` and `frame(app, ctx) -> should_exit: bool`.
Note the source's `fn frame(&mut self, ctx: &mut Context<Self>) -> bool`
takes no elapsed-time argument. (`deinit` is not needed by any claim.) -/
structure AppCallbacks (T I : Type) where
  init : I → Ctx → T × Ctx
  frame : T → Ctx → T × Ctx × Bool

/-- The lifecycle state `AppState<T>` (`src/lib.rs:72`):
`Init(Option<T::Init>)` (the `Option` is for moving the payload out),
`App(T)` (running), `Deinit`. -/
inductive AppState (T I : Type)
  | Init (payload : Option I)
  | App (app : T)
  | Deinit
  deriving DecidableEq, Repr

/-- The handler state `AppHandler<T>` (`src/lib.rs:79`): the optional
execution context (absent until init completes) and the lifecycle state.
The event-loop proxy is only used to deliver the init-complete event and
is left implicit. -/
structure AppHandler (T I : Type) where
  ctx : Option Ctx
  app : AppState T I
  deriving DecidableEq, Repr

/-- `AppHandler::new` (`src/lib.rs:88`): no context yet, lifecycle state
`Init(Some(payload))`. -/
def AppHandler.new (T : Type) {I : Type} (payload : I) : AppHandler T I :=
  { ctx := none, app := .Init (some payload) }

/-- One observed invocation of an application callback. `frameCall`
records the elapsed-time argument of the invocation (`none` when the
dispatch passes no such argument, as `src/lib.rs:151` does: it calls
`app.frame(ctx)` with no time value) and the input-queue contents the
callback observes through the context. -/
inductive CallbackCall
  | initCall
  | frameCall (dt : Option Nat) (observed : List HardwareEvent)
  deriving DecidableEq, Repr

/-- `AppHandler::user_event` (`src/lib.rs:118`), the init-complete event
carrying the freshly built context. The source's
`let AppState::Init(init) = &mut self.app else { unreachable!() };`
panics unless the state is `Init`, and `init.take().unwrap()` panics if
the payload was already consumed; panics are `none`. Otherwise the
application's `init` runs and the state becomes
`{ ctx: Some(ctx), app: App(app) }`. -/
def AppHandler.user_event {T I : Type} (cb : AppCallbacks T I)
    (h : AppHandler T I) (ctx : Ctx) :
    Option (AppHandler T I × List CallbackCall) :=
  match h.app with
  | .Init (some payload) =>
    let r := cb.init payload ctx
    some ({ ctx := some r.2, app := .App r.1 }, [.initCall])
  | .Init none => none
  | _ => none

/-- `AppHandler::device_event` (`src/lib.rs:127`): forwarded to the input
translator only when the context exists; dropped otherwise. -/
def AppHandler.device_event {T I : Type} (h : AppHandler T I)
    (e : DeviceEvent) : AppHandler T I :=
  match h.ctx with
  | some ctx =>
    { h with ctx := some { ctx with input := ctx.input.event (.Device e) } }
  | none => h

/-- `AppHandler::window_event` (`src/lib.rs:135`): everything is dropped
while the context is absent. With a context: `Resized` clamps both
dimensions to at least 1 and forwards to `Graphics::configure`;
`RedrawRequested` runs the frame callback (panicking — `none` — unless the
lifecycle state is `App`), records whether the callback requested exit
(the returned `Bool`; the source calls `event_loop.exit()` on `true`),
then clears the input queue; every other window event is forwarded to the
input translator. -/
def AppHandler.window_event {T I : Type} (cb : AppCallbacks T I)
    (h : AppHandler T I) (e : WindowEvent) :
    Option (AppHandler T I × List CallbackCall × Bool) :=
  match h.ctx with
  | none => some (h, [], false)
  | some ctx =>
    match e with
    | .Resized new_width new_height =>
      let width := max new_width 1
      let height := max new_height 1
      let ctxR := { ctx with graphics := ctx.graphics.configure (width, height) }
      some ({ h with ctx := some ctxR }, [], false)
    | .RedrawRequested =>
      match h.app with
      | .App app =>
        let r := cb.frame app ctx
        let ctx2 := { r.2.1 with input := r.2.1.input.clear }
        some ({ ctx := some ctx2, app := .App r.1 },
              [.frameCall none ctx.input.events], r.2.2)
      | _ => none
    | e =>
      some ({ h with ctx := some { ctx with input := ctx.input.event (.Window e) } },
            [], false)

/-- One event as delivered by the `winit` event loop to the handler. -/
inductive LoopEvent
  | UserEvent (ctx : Ctx)
  | FromDevice (event : DeviceEvent)
  | FromWindow (event : WindowEvent)

/-- Whether a loop event is the init-complete (user) event. -/
def LoopEvent.isUserEvent : LoopEvent → Bool
  | .UserEvent _ => true
  | _ => false

/-- Runs the handler over a list of loop events, accumulating the observed
application-callback invocations in order; `none` as soon as any step
panics. (An exit request does not stop dispatch of already-delivered
events; no claim depends on the loop's termination behaviour.) -/
def runTrace {T I : Type} (cb : AppCallbacks T I) (h : AppHandler T I) :
    List LoopEvent → Option (AppHandler T I × List CallbackCall)
  | [] => some (h, [])
  | .UserEvent ctx :: rest =>
    match AppHandler.user_event cb h ctx with
    | none => none
    | some (h1, calls) =>
      match runTrace cb h1 rest with
      | none => none
      | some (h2, calls2) => some (h2, calls ++ calls2)
  | .FromDevice e :: rest => runTrace cb (h.device_event e) rest
  | .FromWindow e :: rest =>
    match AppHandler.window_event cb h e with
    | none => none
    | some (h1, calls, _exit) =>
      match runTrace cb h1 rest with
      | none => none
      | some (h2, calls2) => some (h2, calls ++ calls2)

/-- A raw input event, as a loop event. -/
def rawToLoop : RawEvent → LoopEvent
  | .Device e => .FromDevice e
  | .Window e => .FromWindow e

/-- Raw events that the dispatch forwards to the input translator:
everything except the window events `Resized` and `RedrawRequested`,
which `window_event` handles itself. -/
def isInputRaw : RawEvent → Bool
  | .Window (.Resized _ _) => false
  | .Window .RedrawRequested => false
  | _ => true

/-- A trivial application over `T = I = Unit` (its frame callback leaves
the context unchanged and never requests exit), for concrete evaluations. -/
def unitCallbacks : AppCallbacks Unit Unit :=
  { init := fun _ ctx => ((), ctx)
    frame := fun _ ctx => ((), ctx, false) }

/-- A concrete freshly initialized execution context. -/
def ctx0 : Ctx :=
  { input := Input.new, graphics := Graphics.initial }

/-- Whether a semantic event is a key event (`HardwareEvent::Key`). -/
def HardwareEvent.isKey : HardwareEvent → Bool
  | .Key _ _ => true
  | _ => false

/-! ## Theorems about the presentation surface manager -/

/-- Zero-dimension configure calls are identities, so a fold of them
changes nothing. -/
theorem List.foldl_configure_allZeroDim (calls : List (Nat × Nat))
    (h : allZeroDim calls) (g : Graphics) :
    calls.foldl Graphics.configure g = g := by
  induction calls generalizing g with
  | nil => rfl
  | cons c cs ih =>
    have hc := h c (List.mem_cons_self _ _)
    have hid : Graphics.configure g c = g := by
      rcases hc with h0 | h0 <;> simp [Graphics.configure, h0]
    rw [List.foldl_cons, hid]
    exact ih (fun wh hm => h wh (List.mem_cons_of_mem _ hm)) g

/-- C1: at the failing input — a manager configured at (800, 600), with the
surface reporting `Lost` (resp. `Outdated`) on acquisition — `current_surface`
returns `Ok(None)` and leaves the `Graphics` state bit-for-bit unchanged:
in particular the underlying surface is NOT reconfigured
(`reconfigure_count` stays at 1), because `self.configure(size)` is called
with `size` equal to `self.surface_size` and the equal-size guard in
`Graphics::configure` turns it into a no-op. The claim (and the spec) say
the last known configuration is re-applied to the underlying surface. -/
theorem c1_lost_outdated_never_reconfigures :
    (Graphics.initial.configure (800, 600)).current_surface (.err .Lost) =
      (Graphics.initial.configure (800, 600), .ok none) ∧
    (Graphics.initial.configure (800, 600)).current_surface (.err .Outdated) =
      (Graphics.initial.configure (800, 600), .ok none) ∧
    (Graphics.initial.configure (800, 600)).reconfigure_count = 1 ∧
    ((Graphics.initial.configure (800, 600)).current_surface
        (.err .Lost)).1.reconfigure_count = 1 :=
  ⟨rfl, rfl, rfl, rfl⟩

/-- C2 counterexample: after the call sequence
`configure(0,0); configure(800,600); configure(800,600); configure(0,300)`
the manager is NOT back in the unconfigured state: `configure(0,300)` has a
zero width and is therefore a no-op, so `surface_size` is still
`Some((800,600))`, not `None` as the claim states. -/
theorem c2_final_zero_call_keeps_configuration :
    resizeSequence.surface_size = some (800, 600) ∧
    resizeSequence.surface_size ≠ none := by
  decide

/-- C2 amended: starting unconfigured, `configure(0,0)` is a no-op, the
first `configure(800,600)` performs the underlying reconfiguration
exactly once, the duplicate `configure(800,600)` is a no-op, and the final
`configure(0,300)` is also a no-op: the whole sequence reconfigures exactly
once and leaves the manager configured at (800, 600). -/
theorem c2_resize_sequence :
    Graphics.initial.configure (0, 0) = Graphics.initial ∧
    (Graphics.initial.configure (800, 600)).surface_size = some (800, 600) ∧
    (Graphics.initial.configure (800, 600)).reconfigure_count = 1 ∧
    (Graphics.initial.configure (800, 600)).configure (800, 600) =
      Graphics.initial.configure (800, 600) ∧
    resizeSequence.surface_size = some (800, 600) ∧
    resizeSequence.reconfigure_count = 1 := by
  decide

/-- C4: (1) `configure(w, h)` is a no-op whenever a dimension is zero or the
requested size equals the currently applied size; (2) two consecutive
`configure` calls with identical strictly positive dimensions perform the
underlying reconfiguration at most once; (3) a manager that has only ever
received zero-dimension configure calls is still unconfigured, and
`current_surface` on it returns `Ok(None)` whatever the surface would have
answered — never an error. -/
theorem c4_configure_guards :
    (∀ (g : Graphics) (wh : Nat × Nat),
        wh.1 = 0 ∨ wh.2 = 0 ∨ some wh = g.surface_size →
        g.configure wh = g) ∧
    (∀ (g : Graphics) (w h : Nat), 0 < w → 0 < h →
        ((g.configure (w, h)).configure (w, h)).reconfigure_count ≤
          g.reconfigure_count + 1) ∧
    (∀ calls : List (Nat × Nat), allZeroDim calls →
        (calls.foldl Graphics.configure Graphics.initial).surface_size = none ∧
        ∀ resp,
          (calls.foldl Graphics.configure Graphics.initial).current_surface resp =
            (calls.foldl Graphics.configure Graphics.initial, .ok none)) := by
  refine ⟨?_, ?_, ?_⟩
  · intro g wh hz
    rcases hz with h0 | h0 | h0 <;> simp [Graphics.configure, h0]
  · intro g w h hw hh
    by_cases hs : some (w, h) = g.surface_size
    · simp [Graphics.configure, hs]
    · simp [Graphics.configure, hs, hw, hh]
  · intro calls hz
    rw [List.foldl_configure_allZeroDim calls hz]
    exact ⟨rfl, fun resp => rfl⟩

/-- Witness for `c4_configure_guards` at concrete inputs: `configure(0,5)`
on a fresh manager is a no-op; `configure(640,480)` twice reconfigures at
most once; the history `[(0,5), (7,0)]` leaves the manager unconfigured. -/
theorem c4_configure_guards_witness :
    Graphics.initial.configure (0, 5) = Graphics.initial ∧
    ((Graphics.initial.configure (640, 480)).configure (640, 480)).reconfigure_count ≤
      Graphics.initial.reconfigure_count + 1 ∧
    (([(0, 5), (7, 0)] : List (Nat × Nat)).foldl Graphics.configure
        Graphics.initial).surface_size = none :=
  ⟨c4_configure_guards.1 Graphics.initial (0, 5) (Or.inl rfl),
   c4_configure_guards.2.1 Graphics.initial 640 480 (by decide) (by decide),
   (c4_configure_guards.2.2 [(0, 5), (7, 0)] (by decide)).1⟩

/-! ## Theorems about the input translator -/

/-- With capture mode on, `convert` never moves the stored pointer
position, whatever the raw event. -/
theorem convert_capture_pointer_pos (pp : Vec2) (e : RawEvent) :
    (convert true pp e).1 = pp := by
  cases e with
  | Device d => cases d <;> rfl
  | Window w =>
    cases w
    case MouseWheel delta => cases delta <;> rfl
    case KeyboardInput ev =>
      obtain ⟨pk, st, txt⟩ := ev
      cases pk <;> rfl
    all_goals rfl

/-- Folding the input translator over any raw-event list while capture
mode is on leaves the pointer position and the flag unchanged. -/
theorem foldl_event_capture (es : List RawEvent) :
    ∀ i : Input, i.cam_mode = true →
      (es.foldl Input.event i).pointer_pos = i.pointer_pos ∧
      (es.foldl Input.event i).cam_mode = true := by
  induction es with
  | nil => intro i h; exact ⟨rfl, h⟩
  | cons e es ih =>
    intro i h
    have h1 : (i.event e).cam_mode = true := h
    have h2 : (i.event e).pointer_pos = i.pointer_pos := by
      show (convert i.cam_mode i.pointer_pos e).1 = i.pointer_pos
      rw [h, convert_capture_pointer_pos]
    rw [List.foldl_cons]
    obtain ⟨a, b⟩ := ih (i.event e) h1
    exact ⟨a.trans h2, b⟩

/-- C8: while capture mode is active, a relative device-motion delta is
reported (`RawMouseDelta`) and an absolute cursor-moved event is
suppressed entirely, leaving the stored pointer position untouched;
enabling capture hides then confines the cursor; after enabling capture
and processing ANY raw-event sequence the pointer position still equals
its value at enable time, and disabling capture releases confinement,
restores visibility and repositions the system cursor to exactly that
recorded position. -/
theorem c8_capture_mode_pointer :
    (∀ pp delta : Vec2,
        convert true pp (.Device (.MouseMotion delta)) =
          (pp, [.RawMouseDelta delta])) ∧
    (∀ pp pos : Vec2,
        convert true pp (.Window (.CursorMoved pos)) = (pp, [])) ∧
    (∀ i : Input,
        (i.mouse_cam_mode true).2 =
          [.SetCursorVisible false, .SetCursorGrab .Confined]) ∧
    (∀ (i : Input) (es : List RawEvent),
        (es.foldl Input.event (i.mouse_cam_mode true).1).pointer_pos =
          i.pointer_pos ∧
        ((es.foldl Input.event (i.mouse_cam_mode true).1).mouse_cam_mode
            false).1.cam_mode = false ∧
        ((es.foldl Input.event (i.mouse_cam_mode true).1).mouse_cam_mode
            false).2 =
          [.SetCursorGrab .None, .SetCursorVisible true,
           .SetCursorPosition i.pointer_pos]) := by
  refine ⟨fun pp delta => rfl, fun pp pos => rfl, fun i => rfl, ?_⟩
  intro i es
  have hcap := foldl_event_capture es (i.mouse_cam_mode true).1 rfl
  refine ⟨hcap.1, rfl, ?_⟩
  show [WindowCmd.SetCursorGrab .None, .SetCursorVisible true,
        .SetCursorPosition (es.foldl Input.event
          (i.mouse_cam_mode true).1).pointer_pos] = _
  rw [hcap.1]
  exact rfl

/-- C9: for a keyboard input carrying raw code `kc`, the semantic key
events emitted by `convert` are exactly one `Key` event (with the mapped
key and the pressed flag) when `kc` is in the static mapping table, and
none at all when it is absent — a silent drop, `convert` being total and
error-free — regardless of capture mode, pointer position, press or
release, and any accompanying text. -/
theorem c9_key_mapping :
    ∀ (cam_mode : Bool) (pp : Vec2) (kc : KeyCode) (st : ElementState)
      (txt : Option Char),
      (convert cam_mode pp
          (.Window (.KeyboardInput ⟨.Code kc, st, txt⟩))).2.filter
          HardwareEvent.isKey =
        match keyMap kc with
        | some k => [.Key k (st == .Pressed)]
        | none => [] := by
  intro cam_mode pp kc st txt
  cases hk : keyMap kc <;> cases txt <;>
    simp [convert, hk, HardwareEvent.isKey, List.filter]

/-- C10: `Input::clear` empties the per-frame event queue and leaves the
pointer position and the capture-mode flag exactly as they were. -/
theorem c10_clear_only_events :
    ∀ i : Input,
      (i.clear).events = [] ∧
      (i.clear).pointer_pos = i.pointer_pos ∧
      (i.clear).cam_mode = i.cam_mode :=
  fun _ => ⟨rfl, rfl, rfl⟩

/-! ## Theorems about the lifecycle controller -/

/-- A window event delivered while the handler has no context is a no-op
with no callback and no exit request. -/
theorem window_event_no_ctx {T I : Type} (cb : AppCallbacks T I)
    (h : AppHandler T I) (e : WindowEvent) (hctx : h.ctx = none) :
    AppHandler.window_event cb h e = some (h, [], false) := by
  unfold AppHandler.window_event
  rw [hctx]

/-- A device event delivered while the handler has no context is dropped. -/
theorem device_event_no_ctx {T I : Type} (h : AppHandler T I)
    (e : DeviceEvent) (hctx : h.ctx = none) :
    AppHandler.device_event h e = h := by
  unfold AppHandler.device_event
  rw [hctx]

/-- C5: in the `Uninitialized` state (no context installed, pending
payload present), any trace of device and window events — redraws
included — that contains no init-complete event leaves the handler
bit-for-bit unchanged and invokes no application callback at all: the
first init or frame dispatch can only happen after the
`Uninitialized → Running` transition installs the context. -/
theorem c5_no_callback_before_init {T I : Type} (cb : AppCallbacks T I)
    (payload : I) (trace : List LoopEvent)
    (htrace : ∀ e ∈ trace, e.isUserEvent = false) :
    runTrace cb (AppHandler.new T payload) trace =
      some (AppHandler.new T payload, []) := by
  have key : ∀ (t : List LoopEvent), (∀ e ∈ t, e.isUserEvent = false) →
      ∀ h : AppHandler T I, h.ctx = none → runTrace cb h t = some (h, []) := by
    intro t
    induction t with
    | nil => intro _ h _; rfl
    | cons e rest ih =>
      intro ht h hctx
      have hrest : ∀ x ∈ rest, x.isUserEvent = false :=
        fun x hx => ht x (List.mem_cons_of_mem _ hx)
      cases e with
      | UserEvent c =>
        have := ht _ (List.mem_cons_self _ _)
        simp [LoopEvent.isUserEvent] at this
      | FromDevice d =>
        show runTrace cb (h.device_event d) rest = some (h, [])
        rw [device_event_no_ctx h d hctx]
        exact ih hrest h hctx
      | FromWindow w =>
        show runTrace cb h (.FromWindow w :: rest) = some (h, [])
        simp only [runTrace, window_event_no_ctx cb h w hctx,
          ih hrest h hctx]
        rfl
  exact key trace htrace (AppHandler.new T payload) rfl

/-- Witness for `c5_no_callback_before_init`: a concrete callback-free
trace of one device event, one redraw and one close request delivered
before init-complete changes nothing and calls nothing. -/
theorem c5_no_callback_before_init_witness :
    (∀ e ∈ ([.FromDevice (.MouseMotion ⟨3, 4⟩), .FromWindow .RedrawRequested,
             .FromWindow .CloseRequested] : List LoopEvent),
        e.isUserEvent = false) ∧
    runTrace unitCallbacks (AppHandler.new Unit ())
        [.FromDevice (.MouseMotion ⟨3, 4⟩), .FromWindow .RedrawRequested,
         .FromWindow .CloseRequested] =
      some (AppHandler.new Unit (), []) :=
  ⟨by decide,
   c5_no_callback_before_init unitCallbacks ()
     [.FromDevice (.MouseMotion ⟨3, 4⟩), .FromWindow .RedrawRequested,
      .FromWindow .CloseRequested] (by decide)⟩

/-- C6: from `Uninitialized` with a pending payload, the first
init-complete delivery consumes the payload exactly once — the application
instance is built from it and the state becomes `Running` with the context
installed — and a second init-complete delivery to the resulting handler
is a fatal contract violation (the `let AppState::Init(..) else
unreachable!()` panic, modelled as `none`), not a silent overwrite of the
running instance; likewise consuming an already-taken payload
(`Init(None)`) is fatal. -/
theorem c6_second_init_fatal {T I : Type} (cb : AppCallbacks T I)
    (payload : I) (c0 : Option Ctx) (ctx1 ctx2 : Ctx) :
    (∃ h1 : AppHandler T I,
      AppHandler.user_event cb ⟨c0, .Init (some payload)⟩ ctx1 =
        some (h1, [.initCall]) ∧
      h1.app = .App (cb.init payload ctx1).1 ∧
      h1.ctx = some (cb.init payload ctx1).2 ∧
      AppHandler.user_event cb h1 ctx2 = none) ∧
    AppHandler.user_event cb ⟨c0, .Init (none : Option I)⟩ ctx1 = none :=
  ⟨⟨_, rfl, rfl, rfl, rfl⟩, rfl⟩

/-- Dispatching one window event that forwards to the input translator,
inside a running trace. -/
theorem runTrace_cons_window {T I : Type} (cb : AppCallbacks T I)
    (h : AppHandler T I) (w : WindowEvent) (rest : List LoopEvent)
    (h1 : AppHandler T I)
    (hw : AppHandler.window_event cb h w = some (h1, [], false)) :
    runTrace cb h (.FromWindow w :: rest) = runTrace cb h1 rest := by
  simp only [runTrace, hw]
  cases hr : runTrace cb h1 rest with
  | none => rfl
  | some p => simp

/-- Forwarded input events accumulate in the context's input queue: a
run over translated raw input events followed by any tail behaves like the
tail started from the context whose input state folded those events in. -/
theorem runTrace_inputs {T I : Type} (cb : AppCallbacks T I)
    (a : AppState T I) (es : List RawEvent)
    (hes : ∀ e ∈ es, isInputRaw e = true) :
    ∀ (ctx : Ctx) (tail : List LoopEvent),
      runTrace cb ⟨some ctx, a⟩ (es.map rawToLoop ++ tail) =
        runTrace cb
          ⟨some ({ ctx with input := es.foldl Input.event ctx.input }), a⟩
          tail := by
  induction es with
  | nil => intro ctx tail; rfl
  | cons e es ih =>
    intro ctx tail
    have he := hes e (List.mem_cons_self _ _)
    have hes' : ∀ x ∈ es, isInputRaw x = true :=
      fun x hx => hes x (List.mem_cons_of_mem _ hx)
    cases e with
    | Device d =>
      exact ih hes' ({ ctx with input := ctx.input.event (.Device d) }) tail
    | Window w =>
      cases w
      case Resized wd ht => simp [isInputRaw] at he
      case RedrawRequested => simp [isInputRaw] at he
      case CloseRequested =>
        exact (runTrace_cons_window cb ⟨some ctx, a⟩ .CloseRequested _ _
          rfl).trans (ih hes' _ tail)
      case CursorMoved p =>
        exact (runTrace_cons_window cb ⟨some ctx, a⟩ (.CursorMoved p) _ _
          rfl).trans (ih hes' _ tail)
      case MouseInput st b =>
        exact (runTrace_cons_window cb ⟨some ctx, a⟩ (.MouseInput st b) _ _
          rfl).trans (ih hes' _ tail)
      case CursorLeft =>
        exact (runTrace_cons_window cb ⟨some ctx, a⟩ .CursorLeft _ _
          rfl).trans (ih hes' _ tail)
      case MouseWheel d =>
        exact (runTrace_cons_window cb ⟨some ctx, a⟩ (.MouseWheel d) _ _
          rfl).trans (ih hes' _ tail)
      case KeyboardInput ev =>
        exact (runTrace_cons_window cb ⟨some ctx, a⟩ (.KeyboardInput ev) _ _
          rfl).trans (ih hes' _ tail)
      case OtherWindow =>
        exact (runTrace_cons_window cb ⟨some ctx, a⟩ .OtherWindow _ _
          rfl).trans (ih hes' _ tail)

/-- C7: in the `Running` state, for any raw input events `es` delivered
since the last frame and then a redraw, the frame callback observes
exactly the queue accumulated by folding those events into the context's
input state (everything queued since the previous frame is visible), and
the handler after the redraw carries an empty input queue — the queue is
cleared after the callback returns, exactly once, so the next frame's
callback starts from an empty queue. -/
theorem c7_input_queue_per_frame {T I : Type} (cb : AppCallbacks T I)
    (app : T) (ctx : Ctx) (es : List RawEvent)
    (hes : ∀ e ∈ es, isInputRaw e = true) :
    ∃ h1 : AppHandler T I,
      runTrace cb ⟨some ctx, .App app⟩
          (es.map rawToLoop ++ [.FromWindow .RedrawRequested]) =
        some (h1,
          [.frameCall none (es.foldl Input.event ctx.input).events]) ∧
      ∀ c : Ctx, h1.ctx = some c → c.input.events = [] := by
  rw [runTrace_inputs cb _ es hes ctx [.FromWindow .RedrawRequested]]
  refine ⟨_, rfl, ?_⟩
  intro c hc
  obtain rfl := Option.some.inj hc
  rfl

/-- Witness for `c7_input_queue_per_frame`: one close request and one
device motion before a redraw on a fresh running context. -/
theorem c7_input_queue_per_frame_witness :
    (∀ e ∈ ([.Window .CloseRequested, .Device (.MouseMotion ⟨1, 2⟩)] :
        List RawEvent), isInputRaw e = true) ∧
    ∃ h1 : AppHandler Unit Unit,
      runTrace unitCallbacks ⟨some ctx0, .App ()⟩
          (([.Window .CloseRequested, .Device (.MouseMotion ⟨1, 2⟩)] :
              List RawEvent).map rawToLoop ++
            [.FromWindow .RedrawRequested]) =
        some (h1,
          [.frameCall none
            (([.Window .CloseRequested, .Device (.MouseMotion ⟨1, 2⟩)] :
                List RawEvent).foldl Input.event ctx0.input).events]) ∧
      ∀ c : Ctx, h1.ctx = some c → c.input.events = [] :=
  ⟨by decide,
   c7_input_queue_per_frame unitCallbacks () ctx0
     [.Window .CloseRequested, .Device (.MouseMotion ⟨1, 2⟩)] (by decide)⟩

/-- C3 counterexample: at a concrete running handler, the redraw dispatch
invokes the frame callback with the context and NO elapsed-time value —
the invocation record's dt component is `none`, never `some dt` — because
`src/lib.rs:151` calls `app.frame(ctx)` and the `App` trait's
`fn frame(&mut self, ctx: &mut Context<Self>) -> bool` has no dt
parameter; no frame-clock sample exists anywhere in the handler state.
This contradicts the claimed
`frame(application_instance, context, dt_seconds)` signature. -/
theorem c3_no_dt_counterexample :
    AppHandler.window_event unitCallbacks ⟨some ctx0, .App ()⟩
        .RedrawRequested =
      some (⟨some ctx0, .App ()⟩, [.frameCall none []], false) ∧
    [CallbackCall.frameCall none []] ≠ [CallbackCall.frameCall (some 0) []] := by
  decide

/-- C3 amended: on every redraw event in the `Running` state the
controller invokes the application's frame callback exactly once, with the
execution context (through which it observes the queued input); the
callback's signature is `frame(application_instance, context) ->
should_exit: bool` — no elapsed-time argument is computed or passed (the
repository's frame-clock module is unused by this dispatch) — and the
exit request equals the callback's returned boolean, with the input queue
cleared afterwards. -/
theorem c3_redraw_dispatch {T I : Type} (cb : AppCallbacks T I) (app : T)
    (ctx : Ctx) :
    AppHandler.window_event cb ⟨some ctx, .App app⟩ .RedrawRequested =
      some (⟨some ({ (cb.frame app ctx).2.1 with
                      input := (cb.frame app ctx).2.1.input.clear }),
             .App (cb.frame app ctx).1⟩,
            [.frameCall none ctx.input.events],
            (cb.frame app ctx).2.2) :=
  rfl

end GruWgpu
